import Mathlib

/-!
Verification development for `update-expert-templates.py`, a one-shot script
that merges optimized expert prompt definitions into a JSON template catalog,
writes a timestamped backup of the original catalog, and overwrites the
catalog file with the merged, version-stamped result.

The script's JSON documents are modelled as Lean structures; Python dicts of
industries/experts become association lists (`List (String × _)`) with
first-occurrence lookup and in-place replacement, matching dict semantics
(a Python dict never holds duplicate keys, so first-occurrence semantics
coincide with dict semantics on every representable document).

File behaviour is modelled by `runScript`, which returns the process exit
code together with the ordered list of file writes (path, content) the run
performs.  A `none` input document stands for a file whose JSON failed to
parse (or could not be read); a `none` result of the in-memory merge stands
for an uncaught exception (the IndexError raised by `templates[0]` on an
empty list).
-/

namespace UpdateExpertTemplates

/-- Prompt block of a catalog template: the six string fields stored under
the `prompt` key of a Template record. -/
structure PromptBlock where
  system : String
  context : String
  task : String
  format : String
  examples : String
  safety : String
deriving DecidableEq, Repr

/-- Template record of the catalog document. -/
structure Template where
  id : String
  title : String
  category : String
  description : String
  difficulty : String
  estimatedTime : String
  prompt : PromptBlock
  tags : List String
  useCases : List String
  targetUsers : List String
  coreCompetencies : List String
  bestPractices : List String
  optimizationFeatures : List String
deriving DecidableEq, Repr

/-- Industry record of the catalog document (`industries` values). -/
structure Industry where
  name : String
  description : String
  emoji : String
  targetUsers : List String
  coreCompetencies : List String
  templates : List Template
deriving DecidableEq, Repr

/-- Summary record the script attaches under `optimizationInfo`. -/
structure OptimizationInfo where
  optimizedBy : String
  optimizationDate : String
  features : List String
  expertCount : Nat
  backupFile : String
deriving DecidableEq, Repr

/-- Catalog document (`templates-2025.json`). -/
structure Catalog where
  version : String
  lastUpdated : String
  industries : List (String × Industry)
  optimizationInfo : Option OptimizationInfo
deriving DecidableEq, Repr

/-- The `optimized_prompt` sub-record of an expert in the optimization
source document. -/
structure OptimizedPrompt where
  system : String
  context : String
  task_framework : String
  output_format : String
  safety_guidelines : String
deriving DecidableEq, Repr

/-- ExpertInfo record of the optimization source document
(`experts` values). -/
structure ExpertInfo where
  name : String
  description : String
  emoji : String
  target_users : List String
  core_competencies : List String
  optimized_prompt : OptimizedPrompt
deriving DecidableEq, Repr

/-- Optimization source document (`optimized-expert-prompts.json`). -/
structure SourceDoc where
  experts : List (String × ExpertInfo)
deriving DecidableEq, Repr

/-- Dict lookup on an association list: value at the first occurrence of
key `k`, or `none`.  Models `d[k]` / `k in d` on a Python dict. -/
def lookupA {α : Type} (k : String) : List (String × α) → Option α
  | [] => none
  | (k', v) :: rest => if k' = k then some v else lookupA k rest

/-- Dict value replacement on an association list: replaces the value at the
first occurrence of key `k`, leaving the list unchanged when `k` is absent.
Models `d[k] = v` for a key already present in a Python dict. -/
def updateA {α : Type} (k : String) (v : α) : List (String × α) → List (String × α)
  | [] => []
  | (k', v') :: rest => if k' = k then (k', v) :: rest else (k', v') :: updateA k v rest

/-- The optimized template record literal built by
`create_optimized_template` (lines 26-59) from the expert key and the
expert's record: id derived from the key, title/description/examples
interpolated from the expert's display name and description, prompt fields
copied from `optimized_prompt`, and the two fixed five-entry constant
lists. -/
def optTemplate (expert_key : String) (expert_info : ExpertInfo) : Template :=
  {
      id := expert_key ++ "-professional-consultation"
      title := "专业" ++ expert_info.name ++ "咨询助手"
      category := "专业咨询"
      description := "基于行动型AI教练模式的" ++ expert_info.description
      difficulty := "professional"
      estimatedTime := "15-30分钟"
      prompt := {
        system := expert_info.optimized_prompt.system
        context := expert_info.optimized_prompt.context
        task := expert_info.optimized_prompt.task_framework
        format := expert_info.optimized_prompt.output_format
        examples := "基于" ++ expert_info.name ++ "专业场景提供具体可执行的解决方案"
        safety := expert_info.optimized_prompt.safety_guidelines }
      tags := expert_info.core_competencies
      useCases := expert_info.target_users
      targetUsers := expert_info.target_users
      coreCompetencies := expert_info.core_competencies
      bestPractices := [
        "始终提供具体可执行的行动方案",
        "结合中国本土化环境和政策",
        "重视风险识别和防控",
        "支持客户决策和实施",
        "提供持续的专业指导"]
      optimizationFeatures := [
        "行动型AI教练模式",
        "结构化决策框架",
        "具体实施清单",
        "中国本土化适配",
        "专业伦理保障"] }

/-- Embedding of `create_optimized_template(expert_key, optimized_data,
original_template)` (lines 21-61 of the script).  The Python function indexes
`optimized_data['experts'][expert_key]`; a missing key there raises a
KeyError, modelled by `none`.  The `original_template` parameter is accepted
but never used, exactly as in the source. -/
def create_optimized_template (expert_key : String) (optimized_data : SourceDoc)
    (original_template : Template) : Option Template :=
  match lookupA expert_key optimized_data.experts with
  | none => none
  | some expert_info => some (optTemplate expert_key expert_info)

/-- The fixed five-entry expert mapping table (lines 83-89), an identity
mapping of the five known expert keys. -/
def expert_mapping : List (String × String) :=
  [("teacher", "teacher"), ("lawyer", "lawyer"), ("accountant", "accountant"),
   ("realtor", "realtor"), ("insurance", "insurance")]

/-- The keys of the fixed mapping table. -/
def mappingKeys : List String := expert_mapping.map Prod.fst

/-- The state of an industry record after one update-loop iteration hit it
(lines 98-112): `name`/`description`/`emoji`/`targetUsers`/`coreCompetencies`
overwritten from the expert record, the freshly built optimized template
inserted at index 0 of `templates`, and the list truncated to its first 10
elements when its length exceeds 10. -/
def mergedIndustry (expert_info : ExpertInfo) (optimized_template : Template)
    (industry : Industry) : Industry :=
  let inserted := optimized_template :: industry.templates
  { name := expert_info.name
    description := expert_info.description
    emoji := expert_info.emoji
    targetUsers := expert_info.target_users
    coreCompetencies := expert_info.core_competencies
    templates := if inserted.length > 10 then inserted.take 10 else inserted }

/-- One iteration of the update loop (lines 93-115) for the pair
`(expert_key, optimized_key)`.  The accumulator carries the catalog being
mutated in place together with `updated_count`; `none` is a pending
exception, which aborts the rest of the loop.  When the expert key is present
in both documents the industry's basic fields are overwritten from the
expert record, the freshly built optimized template is inserted at index 0,
and the list is truncated to its first 10 elements when it exceeds 10.
Accessing `templates[0]` on an empty list (the argument passed to
`create_optimized_template`) raises an IndexError, modelled by `none`. -/
def processKey (optimized_data : SourceDoc) (acc : Option (Catalog × Nat))
    (pair : String × String) : Option (Catalog × Nat) :=
  match acc with
  | none => none
  | some (original_data, updated_count) =>
    match lookupA pair.1 original_data.industries, lookupA pair.2 optimized_data.experts with
    | some industry, some expert_info =>
      match industry.templates with
      | [] => none
      | t0 :: _ =>
        match create_optimized_template pair.1 optimized_data t0 with
        | none => none
        | some optimized_template =>
          some ({ original_data with
                    industries := updateA pair.1
                      (mergedIndustry expert_info optimized_template industry)
                      original_data.industries },
                updated_count + 1)
    | _, _ => some (original_data, updated_count)

/-- The merge step of `update_expert_templates` (lines 92-115): folds the
update loop over the fixed mapping table, starting from the loaded catalog
and `updated_count = 0`.  Returns the mutated catalog and the final count,
or `none` when an iteration raised. -/
def update_expert_templates (original_data : Catalog) (optimized_data : SourceDoc) :
    Option (Catalog × Nat) :=
  expert_mapping.foldl (processKey optimized_data) (some (original_data, 0))

/-- The fixed feature list written into `optimizationInfo` (lines 123-129). -/
def features_list : List String :=
  ["行动型AI教练模式", "Context7最佳实践应用", "中国本土化深度优化",
   "结构化决策框架", "具体执行步骤指导"]

/-- The version stamping step (lines 117-132): overwrites `version` and
`lastUpdated` and attaches the `optimizationInfo` summary.  `date` models
`datetime.now().strftime("%Y-%m-%d")`, `dt` the second-granularity variant,
and `backupBase` is `os.path.basename(backup_file)`. -/
def stampVersion (original_data : Catalog) (updated_count : Nat)
    (date dt backupBase : String) : Catalog :=
  { original_data with
    version := "2025.2-optimized"
    lastUpdated := date
    optimizationInfo := some {
      optimizedBy := "Claude Code AI Prompt Generator"
      optimizationDate := dt
      features := features_list
      expertCount := updated_count
      backupFile := backupBase } }

/-- Path of the catalog file (line 67). -/
def original_file : String := "/home/kexing/09-ai-prompt-generator/data/templates-2025.json"

/-- Base name of the backup file for timestamp `ts`
(`os.path.basename` of line 69's path). -/
def backupBaseName (ts : String) : String := "templates-2025-backup-" ++ ts ++ ".json"

/-- Full path of the backup file for timestamp `ts` (line 69). -/
def backup_file (ts : String) : String :=
  "/home/kexing/09-ai-prompt-generator/data/" ++ backupBaseName ts

/-- Whole-run model of `update_expert_templates()` with the `__main__`
guard (lines 63-163).  Inputs are the parse results of the two input files
(`none` = unreadable or malformed JSON, raising before anything is written);
`ts`, `date`, `dt` are the timestamp strings drawn from the clock.  Returns
the process exit code and the ordered list of (path, serialized document)
writes: the catalog is loaded first, then the source, then the backup is
written, then the merge runs (an exception there aborts with the backup
already on disk), then the stamped catalog overwrites the original path. -/
def runScript (orig : Option Catalog) (src : Option SourceDoc)
    (ts date dt : String) : Nat × List (String × Catalog) :=
  match orig with
  | none => (1, [])
  | some original_data =>
    match src with
    | none => (1, [])
    | some optimized_data =>
      let backupWrite := (backup_file ts, original_data)
      match update_expert_templates original_data optimized_data with
      | none => (1, [backupWrite])
      | some (merged, updated_count) =>
        (0, [backupWrite,
             (original_file,
              stampVersion merged updated_count date dt (backupBaseName ts))])

/-! ### Association-list lemmas -/

theorem lookupA_updateA_ne {α : Type} {j k : String} (v : α) (l : List (String × α))
    (h : j ≠ k) : lookupA j (updateA k v l) = lookupA j l := by
  induction l with
  | nil => rfl
  | cons p rest ih =>
    obtain ⟨k', v'⟩ := p
    by_cases hk : k' = k
    · subst hk
      simp [updateA, lookupA, Ne.symm h]
    · by_cases hj : k' = j
      · simp [updateA, lookupA, hk, hj, h]
      · simp [updateA, lookupA, hk, hj, ih]

theorem lookupA_updateA_self {α : Type} (k : String) (v : α) (l : List (String × α)) :
    lookupA k (updateA k v l) = (lookupA k l).map (fun _ => v) := by
  induction l with
  | nil => rfl
  | cons p rest ih =>
    obtain ⟨k', v'⟩ := p
    by_cases hk : k' = k
    · subst hk
      simp [updateA, lookupA]
    · simp [updateA, lookupA, hk, ih]

theorem isSome_lookupA_updateA {α : Type} (j k : String) (v : α) (l : List (String × α)) :
    (lookupA j (updateA k v l)).isSome = (lookupA j l).isSome := by
  by_cases h : j = k
  · subst h
    rw [lookupA_updateA_self]
    cases lookupA j l <;> rfl
  · rw [lookupA_updateA_ne v l h]

/-! ### Lemmas about one iteration of the update loop -/

theorem processKey_skip_left (s : SourceDoc) (c : Catalog) (n : Nat) (p : String × String)
    (hI : lookupA p.1 c.industries = none) :
    processKey s (some (c, n)) p = some (c, n) := by
  cases hE : lookupA p.2 s.experts <;> simp [processKey, hI, hE]

theorem processKey_skip_right (s : SourceDoc) (c : Catalog) (n : Nat) (p : String × String)
    (hE : lookupA p.2 s.experts = none) :
    processKey s (some (c, n)) p = some (c, n) := by
  cases hI : lookupA p.1 c.industries <;> simp [processKey, hI, hE]

theorem processKey_empty (s : SourceDoc) (c : Catalog) (n : Nat) (p : String × String)
    (industry : Industry) (e : ExpertInfo)
    (hI : lookupA p.1 c.industries = some industry)
    (hE : lookupA p.2 s.experts = some e)
    (hT : industry.templates = []) :
    processKey s (some (c, n)) p = none := by
  simp [processKey, hI, hE, hT]

theorem processKey_create_none (s : SourceDoc) (c : Catalog) (n : Nat) (p : String × String)
    (industry : Industry) (e : ExpertInfo) (t0 : Template) (ts : List Template)
    (hI : lookupA p.1 c.industries = some industry)
    (hE : lookupA p.2 s.experts = some e)
    (hT : industry.templates = t0 :: ts)
    (hC : create_optimized_template p.1 s t0 = none) :
    processKey s (some (c, n)) p = none := by
  simp [processKey, hI, hE, hT, hC]

theorem processKey_hit (s : SourceDoc) (c : Catalog) (n : Nat) (p : String × String)
    (industry : Industry) (e : ExpertInfo) (t0 : Template) (ts : List Template) (T : Template)
    (hI : lookupA p.1 c.industries = some industry)
    (hE : lookupA p.2 s.experts = some e)
    (hT : industry.templates = t0 :: ts)
    (hC : create_optimized_template p.1 s t0 = some T) :
    processKey s (some (c, n)) p =
      some ({ c with industries := updateA p.1 (mergedIndustry e T industry) c.industries },
            n + 1) := by
  simp [processKey, hI, hE, hT, hC]

theorem create_eq (k : String) (s : SourceDoc) (t : Template) (e : ExpertInfo)
    (hE : lookupA k s.experts = some e) :
    create_optimized_template k s t = some (optTemplate k e) := by
  simp [create_optimized_template, hE]

theorem processKey_lookup_ne (s : SourceDoc) (c : Catalog) (n : Nat) (p : String × String)
    (c2 : Catalog) (n2 : Nat) (j : String) (hp : p.1 ≠ j)
    (h : processKey s (some (c, n)) p = some (c2, n2)) :
    lookupA j c2.industries = lookupA j c.industries := by
  cases hI : lookupA p.1 c.industries with
  | none =>
    rw [processKey_skip_left s c n p hI] at h
    obtain ⟨rfl, rfl⟩ : c = c2 ∧ n = n2 := by simpa using h
    rfl
  | some industry =>
    cases hE : lookupA p.2 s.experts with
    | none =>
      rw [processKey_skip_right s c n p hE] at h
      obtain ⟨rfl, rfl⟩ : c = c2 ∧ n = n2 := by simpa using h
      rfl
    | some e =>
      cases hT : industry.templates with
      | nil =>
        rw [processKey_empty s c n p industry e hI hE hT] at h
        exact absurd h (by simp)
      | cons t0 ts =>
        cases hC : create_optimized_template p.1 s t0 with
        | none =>
          rw [processKey_create_none s c n p industry e t0 ts hI hE hT hC] at h
          exact absurd h (by simp)
        | some T =>
          rw [processKey_hit s c n p industry e t0 ts T hI hE hT hC] at h
          obtain ⟨h1, h2⟩ :
              ({ c with industries := updateA p.1 (mergedIndustry e T industry) c.industries }
                : Catalog) = c2 ∧ n + 1 = n2 := by simpa using h
          rw [← h1]
          exact lookupA_updateA_ne _ _ (Ne.symm hp)

theorem processKey_isSome (s : SourceDoc) (c : Catalog) (n : Nat) (p : String × String)
    (c2 : Catalog) (n2 : Nat)
    (h : processKey s (some (c, n)) p = some (c2, n2)) (j : String) :
    (lookupA j c2.industries).isSome = (lookupA j c.industries).isSome := by
  cases hI : lookupA p.1 c.industries with
  | none =>
    rw [processKey_skip_left s c n p hI] at h
    obtain ⟨rfl, rfl⟩ : c = c2 ∧ n = n2 := by simpa using h
    rfl
  | some industry =>
    cases hE : lookupA p.2 s.experts with
    | none =>
      rw [processKey_skip_right s c n p hE] at h
      obtain ⟨rfl, rfl⟩ : c = c2 ∧ n = n2 := by simpa using h
      rfl
    | some e =>
      cases hT : industry.templates with
      | nil =>
        rw [processKey_empty s c n p industry e hI hE hT] at h
        exact absurd h (by simp)
      | cons t0 ts =>
        cases hC : create_optimized_template p.1 s t0 with
        | none =>
          rw [processKey_create_none s c n p industry e t0 ts hI hE hT hC] at h
          exact absurd h (by simp)
        | some T =>
          rw [processKey_hit s c n p industry e t0 ts T hI hE hT hC] at h
          obtain ⟨h1, h2⟩ :
              ({ c with industries := updateA p.1 (mergedIndustry e T industry) c.industries }
                : Catalog) = c2 ∧ n + 1 = n2 := by simpa using h
          rw [← h1]
          exact isSome_lookupA_updateA _ _ _ _

/-! ### Lemmas about the whole update fold -/

theorem foldl_processKey_none (s : SourceDoc) (L : List (String × String)) :
    L.foldl (processKey s) none = none := by
  induction L with
  | nil => rfl
  | cons p rest ih =>
    rw [List.foldl_cons, show processKey s none p = none from rfl]
    exact ih

theorem foldl_frame (s : SourceDoc) (j : String) :
    ∀ (L : List (String × String)) (c : Catalog) (n : Nat) (c' : Catalog) (n' : Nat),
      (∀ p ∈ L, p.1 = j → lookupA p.2 s.experts = none ∨ lookupA j c.industries = none) →
      L.foldl (processKey s) (some (c, n)) = some (c', n') →
      lookupA j c'.industries = lookupA j c.industries := by
  intro L
  induction L with
  | nil =>
    intro c n c' n' _ h
    obtain ⟨rfl, rfl⟩ : c = c' ∧ n = n' := by simpa using h
    rfl
  | cons p L ih =>
    intro c n c' n' hcond h
    rw [List.foldl_cons] at h
    cases ha : processKey s (some (c, n)) p with
    | none =>
      rw [ha, foldl_processKey_none] at h
      exact absurd h (by simp)
    | some a =>
      obtain ⟨c2, n2⟩ := a
      rw [ha] at h
      have heq : lookupA j c2.industries = lookupA j c.industries := by
        by_cases hp : p.1 = j
        · rcases hcond p (List.mem_cons_self p L) hp with hskip | hskip
          · rw [processKey_skip_right s c n p hskip] at ha
            obtain ⟨rfl, rfl⟩ : c = c2 ∧ n = n2 := by simpa using ha
            rfl
          · rw [processKey_skip_left s c n p (hp ▸ hskip)] at ha
            obtain ⟨rfl, rfl⟩ : c = c2 ∧ n = n2 := by simpa using ha
            rfl
        · exact processKey_lookup_ne s c n p c2 n2 j hp ha
      rw [← heq]
      apply ih c2 n2 c' n' _ h
      intro q hq hqj
      rcases hcond q (List.mem_cons_of_mem p hq) hqj with hskip | hskip
      · exact Or.inl hskip
      · exact Or.inr (heq.trans hskip)

theorem foldl_frame_ne (s : SourceDoc) (j : String) (L : List (String × String))
    (c : Catalog) (n : Nat) (c' : Catalog) (n' : Nat)
    (hL : ∀ p ∈ L, p.1 ≠ j)
    (h : L.foldl (processKey s) (some (c, n)) = some (c', n')) :
    lookupA j c'.industries = lookupA j c.industries :=
  foldl_frame s j L c n c' n' (fun p hp hpj => absurd hpj (hL p hp)) h

theorem foldl_isSome (s : SourceDoc) :
    ∀ (L : List (String × String)) (c : Catalog) (n : Nat) (c' : Catalog) (n' : Nat),
      L.foldl (processKey s) (some (c, n)) = some (c', n') →
      ∀ j, (lookupA j c'.industries).isSome = (lookupA j c.industries).isSome := by
  intro L
  induction L with
  | nil =>
    intro c n c' n' h j
    obtain ⟨rfl, rfl⟩ : c = c' ∧ n = n' := by simpa using h
    rfl
  | cons p L ih =>
    intro c n c' n' h j
    rw [List.foldl_cons] at h
    cases ha : processKey s (some (c, n)) p with
    | none =>
      rw [ha, foldl_processKey_none] at h
      exact absurd h (by simp)
    | some a =>
      obtain ⟨c2, n2⟩ := a
      rw [ha] at h
      rw [ih c2 n2 c' n' h j]
      exact processKey_isSome s c n p c2 n2 ha j

/-- Test of line 94's condition for a mapping pair: the expert key is present
in the catalog's `industries` and the optimized key in the source's
`experts`. -/
def bothPresent (c : Catalog) (s : SourceDoc) (p : String × String) : Bool :=
  (lookupA p.1 c.industries).isSome && (lookupA p.2 s.experts).isSome

theorem foldl_count (s : SourceDoc) :
    ∀ (L : List (String × String)) (c : Catalog) (n : Nat) (c' : Catalog) (n' : Nat),
      L.foldl (processKey s) (some (c, n)) = some (c', n') →
      n' = n + L.countP (bothPresent c s) := by
  intro L
  induction L with
  | nil =>
    intro c n c' n' h
    obtain ⟨rfl, rfl⟩ : c = c' ∧ n = n' := by simpa using h
    simp
  | cons p L ih =>
    intro c n c' n' h
    rw [List.foldl_cons] at h
    cases hI : lookupA p.1 c.industries with
    | none =>
      rw [processKey_skip_left s c n p hI] at h
      have hb : bothPresent c s p = false := by simp [bothPresent, hI]
      rw [List.countP_cons, hb, ih c n c' n' h]
      simp
    | some industry =>
      cases hE : lookupA p.2 s.experts with
      | none =>
        rw [processKey_skip_right s c n p hE] at h
        have hb : bothPresent c s p = false := by simp [bothPresent, hE]
        rw [List.countP_cons, hb, ih c n c' n' h]
        simp
      | some e =>
        have hb : bothPresent c s p = true := by simp [bothPresent, hI, hE]
        cases hT : industry.templates with
        | nil =>
          rw [processKey_empty s c n p industry e hI hE hT, foldl_processKey_none] at h
          exact absurd h (by simp)
        | cons t0 ts =>
          cases hC : create_optimized_template p.1 s t0 with
          | none =>
            rw [processKey_create_none s c n p industry e t0 ts hI hE hT hC,
              foldl_processKey_none] at h
            exact absurd h (by simp)
          | some T =>
            rw [processKey_hit s c n p industry e t0 ts T hI hE hT hC] at h
            have hstep := ih _ (n + 1) c' n' h
            have hcount :
                L.countP (bothPresent
                  { c with industries := updateA p.1 (mergedIndustry e T industry) c.industries }
                  s) = L.countP (bothPresent c s) := by
              apply List.countP_congr
              intro q _
              unfold bothPresent
              rw [show ({ c with
                    industries := updateA p.1 (mergedIndustry e T industry) c.industries }
                  : Catalog).industries =
                  updateA p.1 (mergedIndustry e T industry) c.industries from rfl,
                isSome_lookupA_updateA]
            rw [hcount] at hstep
            rw [List.countP_cons, hb, hstep]
            simp [Nat.add_assoc, Nat.add_comm]

theorem exists_decomp (k : String) (hk : k ∈ mappingKeys) :
    ∃ L1 L2 : List (String × String),
      expert_mapping = L1 ++ (k, k) :: L2 ∧
      (∀ p ∈ L1, p.1 ≠ k) ∧ (∀ p ∈ L2, p.1 ≠ k) := by
  simp [mappingKeys, expert_mapping] at hk
  rcases hk with rfl | rfl | rfl | rfl | rfl
  · exact ⟨[], [("lawyer", "lawyer"), ("accountant", "accountant"),
      ("realtor", "realtor"), ("insurance", "insurance")], rfl, by decide, by decide⟩
  · exact ⟨[("teacher", "teacher")], [("accountant", "accountant"),
      ("realtor", "realtor"), ("insurance", "insurance")], rfl, by decide, by decide⟩
  · exact ⟨[("teacher", "teacher"), ("lawyer", "lawyer")],
      [("realtor", "realtor"), ("insurance", "insurance")], rfl, by decide, by decide⟩
  · exact ⟨[("teacher", "teacher"), ("lawyer", "lawyer"), ("accountant", "accountant")],
      [("insurance", "insurance")], rfl, by decide, by decide⟩
  · exact ⟨[("teacher", "teacher"), ("lawyer", "lawyer"), ("accountant", "accountant"),
      ("realtor", "realtor")], [], rfl, by decide, by decide⟩

/-! ### Shape of a merged industry's template list -/

theorem mergedIndustry_templates (e : ExpertInfo) (T : Template) (industry : Industry) :
    (mergedIndustry e T industry).templates =
      if (T :: industry.templates).length > 10 then (T :: industry.templates).take 10
      else T :: industry.templates := rfl

theorem mergedIndustry_templates_shape (e : ExpertInfo) (T : Template) (industry : Industry) :
    ∃ rest, (mergedIndustry e T industry).templates = T :: rest := by
  rw [mergedIndustry_templates]
  split
  · exact ⟨industry.templates.take 9,
      by rw [show (10 : Nat) = 9 + 1 from rfl, List.take_succ_cons]⟩
  · exact ⟨industry.templates, rfl⟩

theorem mergedIndustry_templates_zero (e : ExpertInfo) (T : Template) (industry : Industry) :
    (mergedIndustry e T industry).templates[0]? = some T := by
  obtain ⟨rest, hr⟩ := mergedIndustry_templates_shape e T industry
  rw [hr, List.getElem?_cons_zero]

theorem mergedIndustry_templates_one (e : ExpertInfo) (T : Template) (industry : Industry)
    (t0 : Template) (ts : List Template) (h : industry.templates = t0 :: ts) :
    (mergedIndustry e T industry).templates[1]? = some t0 := by
  rw [mergedIndustry_templates, h]
  split
  · rw [show (10 : Nat) = 8 + 1 + 1 from rfl, List.take_succ_cons, List.take_succ_cons,
      List.getElem?_cons_succ, List.getElem?_cons_zero]
  · rw [List.getElem?_cons_succ, List.getElem?_cons_zero]

theorem mergedIndustry_templates_length (e : ExpertInfo) (T : Template) (industry : Industry) :
    (mergedIndustry e T industry).templates.length ≤ 10 := by
  rw [mergedIndustry_templates]
  split
  · rw [List.length_take]
    omega
  · rename_i h10
    omega

theorem mergedIndustry_templates_length_min (e : ExpertInfo) (T : Template)
    (industry : Industry) :
    (mergedIndustry e T industry).templates.length =
      min (industry.templates.length + 1) 10 := by
  rw [mergedIndustry_templates]
  split
  · rename_i h10
    rw [List.length_cons] at h10
    rw [List.length_take, List.length_cons]
    omega
  · rename_i h10
    rw [List.length_cons] at h10
    rw [List.length_cons]
    omega

theorem mergedIndustry_templates_length_eq (e : ExpertInfo) (T : Template) (industry : Industry)
    (h : industry.templates.length ≤ 9) :
    (mergedIndustry e T industry).templates.length = industry.templates.length + 1 := by
  rw [mergedIndustry_templates]
  split
  · rename_i h10
    exfalso
    rw [List.length_cons] at h10
    omega
  · rw [List.length_cons]

theorem eq_replicate_of_self_cons_take {α : Type} :
    ∀ (n : Nat) (a : α) (m : List α), m = a :: m.take n → m = List.replicate (n + 1) a := by
  intro n
  induction n with
  | zero =>
    intro a m h
    simpa using h
  | succ n ih =>
    intro a m h
    have h' : m.take (n + 1) = a :: (m.take (n + 1)).take n := by
      conv_lhs => rw [h]
      rw [List.take_succ_cons]
    have h2 := ih a (m.take (n + 1)) h'
    rw [h, h2]
    conv_rhs => rw [List.replicate_succ]

theorem mergedIndustry_templates_of_nine_le (e : ExpertInfo) (T : Template)
    (industry : Industry) (h9 : 9 ≤ industry.templates.length) :
    (mergedIndustry e T industry).templates = T :: industry.templates.take 9 := by
  rw [mergedIndustry_templates]
  split
  · rw [show (10 : Nat) = 9 + 1 from rfl, List.take_succ_cons]
  · rename_i h10
    rw [List.length_cons] at h10
    exact congrArg (T :: ·) (List.take_of_length_le (by omega)).symm

/-- Exact characterization of when a second merge of the same industry
leaves the template list unchanged: this happens precisely when the
pre-merge list already starts with nine copies of the inserted template
(truncation then discards the same tail both times); with any other
pre-merge list the two runs' template lists differ. -/
theorem merged_twice_eq_iff (e : ExpertInfo) (T : Template) (industry : Industry) :
    ((mergedIndustry e T industry).templates =
      (mergedIndustry e T (mergedIndustry e T industry)).templates) ↔
    industry.templates.take 9 = List.replicate 9 T := by
  constructor
  · intro heq
    by_cases h9 : 9 ≤ industry.templates.length
    · have h9' : 9 ≤ (mergedIndustry e T industry).templates.length := by
        rw [mergedIndustry_templates_of_nine_le e T industry h9, List.length_cons,
          List.length_take]
        omega
      rw [mergedIndustry_templates_of_nine_le e T industry h9,
        mergedIndustry_templates_of_nine_le e T _ h9',
        mergedIndustry_templates_of_nine_le e T industry h9] at heq
      have htail := (List.cons.inj heq).2
      rw [show (9 : Nat) = 8 + 1 from rfl, List.take_succ_cons] at htail
      rw [show (9 : Nat) = 8 + 1 from rfl]
      exact eq_replicate_of_self_cons_take 8 T (industry.templates.take (8 + 1)) htail
    · exfalso
      have l1len := mergedIndustry_templates_length_eq e T industry (by omega)
      have l2len := mergedIndustry_templates_length_eq e T
        (mergedIndustry e T industry) (by omega)
      have hL := congrArg List.length heq
      omega
  · intro hsat
    have h9 : 9 ≤ industry.templates.length := by
      have hlen := congrArg List.length hsat
      rw [List.length_take, List.length_replicate] at hlen
      omega
    have h9' : 9 ≤ (mergedIndustry e T industry).templates.length := by
      rw [mergedIndustry_templates_of_nine_le e T industry h9, List.length_cons,
        List.length_take]
      omega
    rw [mergedIndustry_templates_of_nine_le e T industry h9,
      mergedIndustry_templates_of_nine_le e T _ h9',
      mergedIndustry_templates_of_nine_le e T industry h9, hsat]
    rw [show (9 : Nat) = 8 + 1 from rfl, List.take_succ_cons, List.take_replicate]
    rw [List.replicate_succ]
    have hmin : 8 ⊓ (8 + 1) = 8 := by omega
    rw [hmin]

/-- Main workhorse: when key `k` of the mapping table is present in both
documents and the update fold succeeds, the resulting catalog holds, at key
`k`, exactly the merged industry built from the pre-merge industry, the
expert record, and the optimized template built for `k`; moreover the
pre-merge template list was non-empty. -/
theorem update_hit (c : Catalog) (s : SourceDoc) (k : String) (ind : Industry)
    (e : ExpertInfo) (c' : Catalog) (n' : Nat)
    (hk : k ∈ mappingKeys)
    (hc : lookupA k c.industries = some ind)
    (hs : lookupA k s.experts = some e)
    (hu : update_expert_templates c s = some (c', n')) :
    ∃ t0 ts, ind.templates = t0 :: ts ∧
      lookupA k c'.industries = some (mergedIndustry e (optTemplate k e) ind) := by
  obtain ⟨L1, L2, hm, h1, h2⟩ := exists_decomp k hk
  rw [update_expert_templates, hm, List.foldl_append] at hu
  cases ha : L1.foldl (processKey s) (some (c, 0)) with
  | none =>
    rw [ha, foldl_processKey_none] at hu
    exact absurd hu (by simp)
  | some a =>
    obtain ⟨c1, n1⟩ := a
    rw [ha, List.foldl_cons] at hu
    have hc1 : lookupA k c1.industries = some ind := by
      rw [foldl_frame_ne s k L1 c 0 c1 n1 h1 ha]
      exact hc
    cases hT : ind.templates with
    | nil =>
      rw [processKey_empty s c1 n1 (k, k) ind e hc1 hs hT, foldl_processKey_none] at hu
      exact absurd hu (by simp)
    | cons t0 ts =>
      have hC : create_optimized_template k s t0 = some (optTemplate k e) :=
        create_eq k s t0 e hs
      rw [processKey_hit s c1 n1 (k, k) ind e t0 ts (optTemplate k e) hc1 hs hT hC] at hu
      have h3 := foldl_frame_ne s k L2 _ _ c' n' h2 hu
      refine ⟨t0, ts, rfl, ?_⟩
      rw [h3, show ({ c1 with
          industries := updateA k (mergedIndustry e (optTemplate k e) ind) c1.industries }
          : Catalog).industries =
          updateA k (mergedIndustry e (optTemplate k e) ind) c1.industries from rfl,
        lookupA_updateA_self, hc1]
      rfl

/-! ### Concrete documents used to instantiate the theorems -/

/-- A minimal template with the given id. -/
def mkT (i : String) : Template :=
  { id := i, title := "", category := "", description := "", difficulty := "",
    estimatedTime := "", prompt := ⟨"", "", "", "", "", ""⟩, tags := [], useCases := [],
    targetUsers := [], coreCompetencies := [], bestPractices := [],
    optimizationFeatures := [] }

/-- A fully populated expert record with short field values. -/
def eShort : ExpertInfo :=
  { name := "n", description := "d", emoji := "e", target_users := ["u"],
    core_competencies := ["c"],
    optimized_prompt := { system := "s", context := "x", task_framework := "t",
                          output_format := "f", safety_guidelines := "g" } }

/-- A teacher industry with a single template. -/
def indTeach : Industry :=
  { name := "n0", description := "d0", emoji := "e0", targetUsers := [],
    coreCompetencies := [], templates := [mkT "a"] }

/-- Catalog holding only the teacher industry. -/
def cTeach : Catalog :=
  { version := "1", lastUpdated := "0", industries := [("teacher", indTeach)],
    optimizationInfo := none }

/-- Source holding only the teacher expert. -/
def sOne : SourceDoc := { experts := [("teacher", eShort)] }

/-- `cTeach` after one merge run against `sOne`. -/
def cTeach1 : Catalog :=
  { cTeach with industries :=
      [("teacher", mergedIndustry eShort (optTemplate "teacher" eShort) indTeach)] }

/-- `cTeach` after two merge runs against `sOne`. -/
def cTeach2 : Catalog :=
  { cTeach with industries :=
      [("teacher", mergedIndustry eShort (optTemplate "teacher" eShort)
        (mergedIndustry eShort (optTemplate "teacher" eShort) indTeach))] }

/-- Ten pairwise distinct templates for the lawyer scenario. -/
def lawyerTemplates : List Template :=
  [mkT "t0", mkT "t1", mkT "t2", mkT "t3", mkT "t4", mkT "t5", mkT "t6", mkT "t7",
   mkT "t8", mkT "t9"]

/-- A lawyer industry already at the ten-template cap. -/
def indLaw : Industry :=
  { name := "n1", description := "d1", emoji := "e1", targetUsers := [],
    coreCompetencies := [], templates := lawyerTemplates }

/-- Catalog holding only the capped lawyer industry. -/
def cLaw : Catalog :=
  { version := "1", lastUpdated := "0", industries := [("lawyer", indLaw)],
    optimizationInfo := none }

/-- Source holding only the lawyer expert. -/
def sLaw : SourceDoc := { experts := [("lawyer", eShort)] }

/-- `cLaw` after one merge run against `sLaw`. -/
def cLaw1 : Catalog :=
  { cLaw with industries :=
      [("lawyer", mergedIndustry eShort (optTemplate "lawyer" eShort) indLaw)] }

/-- Source holding the teacher and realtor experts; `cTeach` lacks a
realtor industry, so a merge against it skips realtor. -/
def sReal : SourceDoc := { experts := [("teacher", eShort), ("realtor", eShort)] }

/-- Catalog with no industries at all: every mapping key is skipped and the
merge reports zero updated experts. -/
def cEmpty : Catalog :=
  { version := "1", lastUpdated := "0", industries := [], optimizationInfo := none }

/-- A teacher industry whose template list is empty. -/
def indTeachEmpty : Industry :=
  { name := "n0", description := "d0", emoji := "e0", targetUsers := [],
    coreCompetencies := [], templates := [] }

/-- Catalog holding a teacher industry with an empty template list. -/
def cTeachEmpty : Catalog :=
  { version := "1", lastUpdated := "0", industries := [("teacher", indTeachEmpty)],
    optimizationInfo := none }

/-- A teacher industry whose template list is already saturated with nine
copies of the optimized template the merge would build for it: the
degenerate pre-merge state in which a second merge run reproduces the same
template list. -/
def indTeachSat : Industry :=
  { name := "n0", description := "d0", emoji := "e0", targetUsers := [],
    coreCompetencies := [],
    templates := List.replicate 9 (optTemplate "teacher" eShort) }

/-- Catalog holding the saturated teacher industry. -/
def cTeachSat : Catalog :=
  { version := "1", lastUpdated := "0", industries := [("teacher", indTeachSat)],
    optimizationInfo := none }

/-! ### Claim theorems -/

/-- C1: for every catalog `c` and source `s` such that a key `k` of the fixed
five-key mapping table is present in both `c.industries` and `s.experts`,
after a successful merge the industry at `k` has, at index 0 of its template
list, the newly built optimized template, whose id is the key followed by
`-professional-consultation`, and the template that was at index 0 before the
merge now sits at index 1. -/
theorem C1_optimized_template_at_head (c : Catalog) (s : SourceDoc) (k : String)
    (ind : Industry) (e : ExpertInfo) (c' : Catalog) (n' : Nat)
    (hk : k ∈ mappingKeys)
    (hc : lookupA k c.industries = some ind)
    (hs : lookupA k s.experts = some e)
    (hu : update_expert_templates c s = some (c', n')) :
    ∃ ind' t0 newT,
      lookupA k c'.industries = some ind' ∧
      ind.templates[0]? = some t0 ∧
      create_optimized_template k s t0 = some newT ∧
      ind'.templates[0]? = some newT ∧
      newT.id = k ++ "-professional-consultation" ∧
      ind'.templates[1]? = some t0 := by
  obtain ⟨t0, ts, hT, hl⟩ := update_hit c s k ind e c' n' hk hc hs hu
  refine ⟨mergedIndustry e (optTemplate k e) ind, t0, optTemplate k e, hl, ?_,
    create_eq k s t0 e hs, mergedIndustry_templates_zero e (optTemplate k e) ind, rfl,
    mergedIndustry_templates_one e (optTemplate k e) ind t0 ts hT⟩
  rw [hT, List.getElem?_cons_zero]

/-- Witness for C1 on the one-industry teacher catalog. -/
theorem C1_witness :
    ("teacher" ∈ mappingKeys ∧
     lookupA "teacher" cTeach.industries = some indTeach ∧
     lookupA "teacher" sOne.experts = some eShort ∧
     update_expert_templates cTeach sOne = some (cTeach1, 1)) ∧
    (∃ ind' t0 newT,
      lookupA "teacher" cTeach1.industries = some ind' ∧
      indTeach.templates[0]? = some t0 ∧
      create_optimized_template "teacher" sOne t0 = some newT ∧
      ind'.templates[0]? = some newT ∧
      newT.id = "teacher" ++ "-professional-consultation" ∧
      ind'.templates[1]? = some t0) :=
  ⟨⟨by decide, by decide, by decide, by decide⟩,
   C1_optimized_template_at_head cTeach sOne "teacher" indTeach eShort cTeach1 1
     (by decide) (by decide) (by decide) (by decide)⟩

/-- C2: for every processed industry (key present in both documents), after a
successful merge its template list has length at most 10, for any pre-merge
length: the insertion grows the list by one, truncated back to the first 10
elements when that exceeds 10, so the post-merge length is
`min (pre + 1) 10`. -/
theorem C2_templates_length_le_ten (c : Catalog) (s : SourceDoc) (k : String)
    (ind : Industry) (e : ExpertInfo) (c' : Catalog) (n' : Nat)
    (hk : k ∈ mappingKeys)
    (hc : lookupA k c.industries = some ind)
    (hs : lookupA k s.experts = some e)
    (hu : update_expert_templates c s = some (c', n')) :
    ∃ ind', lookupA k c'.industries = some ind' ∧ ind'.templates.length ≤ 10 ∧
      ind'.templates.length = min (ind.templates.length + 1) 10 := by
  obtain ⟨t0, ts, hT, hl⟩ := update_hit c s k ind e c' n' hk hc hs hu
  exact ⟨_, hl, mergedIndustry_templates_length _ _ _,
    mergedIndustry_templates_length_min _ _ _⟩

/-- Witness for C2 on the lawyer catalog already holding ten templates:
afterwards the list still has length 10, index 0 carries
`lawyer-professional-consultation`, and the old tenth template is gone. -/
theorem C2_witness :
    ("lawyer" ∈ mappingKeys ∧
     lookupA "lawyer" cLaw.industries = some indLaw ∧
     lookupA "lawyer" sLaw.experts = some eShort ∧
     update_expert_templates cLaw sLaw = some (cLaw1, 1) ∧
     indLaw.templates.length = 10) ∧
    (∃ ind', lookupA "lawyer" cLaw1.industries = some ind' ∧
      ind'.templates.length ≤ 10 ∧
      ind'.templates.length = min (indLaw.templates.length + 1) 10) ∧
    (lookupA "lawyer" cLaw1.industries).map (fun i => i.templates.length) = some 10 ∧
    (lookupA "lawyer" cLaw1.industries).map (fun i => i.templates[0]?.map Template.id) =
      some (some "lawyer-professional-consultation") ∧
    (lookupA "lawyer" cLaw1.industries).map (fun i => decide (mkT "t9" ∈ i.templates)) =
      some false :=
  ⟨⟨by decide, by decide, by decide, by decide, by decide⟩,
   C2_templates_length_le_ten cLaw sLaw "lawyer" indLaw eShort cLaw1 1
     (by decide) (by decide) (by decide) (by decide),
   by decide, by decide, by decide⟩

/-- C3: an industry record is modified only when its key is one of the five
mapping-table keys and is present in `s.experts`; any key that is outside the
table, or absent from `s.experts`, or absent from `c.industries`, is left
with an unchanged industry lookup, and the run does not fail because of it. -/
theorem C3_untouched_keys (c : Catalog) (s : SourceDoc) (c' : Catalog) (n : Nat)
    (j : String)
    (hu : update_expert_templates c s = some (c', n))
    (hj : j ∉ mappingKeys ∨ lookupA j s.experts = none ∨ lookupA j c.industries = none) :
    lookupA j c'.industries = lookupA j c.industries := by
  rw [update_expert_templates] at hu
  apply foldl_frame s j expert_mapping c 0 c' n _ hu
  intro p hp hpj
  have hid : p.1 = p.2 := by
    have hall : ∀ q ∈ expert_mapping, q.1 = q.2 := by decide
    exact hall p hp
  rcases hj with hj | hj | hj
  · have h5 : p.1 ∈ mappingKeys := by
      unfold mappingKeys
      exact List.mem_map_of_mem Prod.fst hp
    exact absurd (hpj ▸ h5) hj
  · exact Or.inl (by rw [← hid, hpj]; exact hj)
  · exact Or.inr hj

/-- Witness for C3: the key `unknown` is outside the table and its (absent)
industry lookup is untouched by a successful run. -/
theorem C3_witness :
    (update_expert_templates cTeach sOne = some (cTeach1, 1) ∧
     "unknown" ∉ mappingKeys) ∧
    lookupA "unknown" cTeach1.industries = lookupA "unknown" cTeach.industries :=
  ⟨⟨by decide, by decide⟩,
   C3_untouched_keys cTeach sOne cTeach1 1 "unknown" (by decide) (Or.inl (by decide))⟩

/-- C4: the updated-experts count returned by the merge (recorded as
`optimizationInfo.expertCount`) equals the number of the five mapping-table
keys present in both `c.industries` and `s.experts`. -/
theorem C4_updated_count (c : Catalog) (s : SourceDoc) (c' : Catalog) (n : Nat)
    (hu : update_expert_templates c s = some (c', n)) :
    n = mappingKeys.countP
      (fun k => (lookupA k c.industries).isSome && (lookupA k s.experts).isSome) := by
  rw [update_expert_templates] at hu
  have h0 := foldl_count s expert_mapping c 0 c' n hu
  have hmap : mappingKeys.countP
      (fun k => (lookupA k c.industries).isSome && (lookupA k s.experts).isSome) =
      expert_mapping.countP (bothPresent c s) := by
    rw [mappingKeys, List.countP_map]
    apply List.countP_congr
    intro p hp
    have hid : p.1 = p.2 := by
      have hall : ∀ q ∈ expert_mapping, q.1 = q.2 := by decide
      exact hall p hp
    simp [bothPresent, Function.comp, hid]
  rw [hmap]
  omega

/-- Witness for C4: the run on a catalog lacking the realtor industry, with a
source containing a realtor expert, reports count 1 — realtor is skipped and
not counted. -/
theorem C4_witness :
    (update_expert_templates cTeach sReal = some (cTeach1, 1) ∧
     lookupA "realtor" sReal.experts = some eShort ∧
     lookupA "realtor" cTeach.industries = none) ∧
    1 = mappingKeys.countP
      (fun k => (lookupA k cTeach.industries).isSome && (lookupA k sReal.experts).isSome) :=
  ⟨⟨by decide, by decide, by decide⟩,
   C4_updated_count cTeach sReal cTeach1 1 (by decide)⟩

/-- C5: whenever both input files parse, the very first file write of the
run is the backup, and its content is exactly the catalog document as
loaded, before any mutation; every later write (there is at most one, the
final overwrite) targets the catalog path. -/
theorem C5_backup_is_premerge_catalog (c : Catalog) (s : SourceDoc) (ts date dt : String) :
    (runScript (some c) (some s) ts date dt).2.head? = some (backup_file ts, c) ∧
    ∀ w ∈ (runScript (some c) (some s) ts date dt).2.tail, w.1 = original_file := by
  cases h : update_expert_templates c s with
  | none => simp [runScript, h]
  | some r =>
    obtain ⟨m, u⟩ := r
    simp [runScript, h]

/-- C6: when the source file's JSON is malformed, the process exits with
status 1 and performs no file write at all — in particular the catalog file
is not modified. -/
theorem C6_malformed_source_writes_nothing (c : Catalog) (ts date dt : String) :
    runScript (some c) none ts date dt = (1, []) := rfl

/-- Option-level composition of two merge runs against the same source,
used to compare the counts the two runs report. -/
def runOnceTeacher : Option (Catalog × Nat) := update_expert_templates cTeach sOne

/-- Second merge run, started from the first run's output catalog. -/
def runTwiceTeacher : Option (Catalog × Nat) :=
  runOnceTeacher.bind (fun r => update_expert_templates r.1 sOne)

/-- First merge run on the saturated teacher catalog. -/
def runOnceSat : Option (Catalog × Nat) := update_expert_templates cTeachSat sOne

/-- Second merge run on the saturated teacher catalog. -/
def runTwiceSat : Option (Catalog × Nat) :=
  runOnceSat.bind (fun r => update_expert_templates r.1 sOne)

/-- Teacher template list extracted from a merge run's output catalog. -/
def teacherTemplatesOf (r : Option (Catalog × Nat)) : Option (Option (List Template)) :=
  r.map (fun q => (lookupA "teacher" q.1.industries).map Industry.templates)

/-- C7 counterexample: the claim asserts that after running the merge twice
the updated count field and the template list contents differ between the
two runs.  On the concrete teacher catalog both runs report count 1, so the
counts are equal; and on the saturated teacher catalog (nine pre-merge
copies of the optimized template) even the template list contents coincide
between the two runs.  Both conjuncts of the claimed difference therefore
fail, refuting the claim as stated. -/
theorem C7_counterexample :
    (runOnceTeacher.map Prod.snd = some 1 ∧ runTwiceTeacher.map Prod.snd = some 1) ∧
    (runOnceSat.map Prod.snd = some 1 ∧ runTwiceSat.map Prod.snd = some 1 ∧
     teacherTemplatesOf runOnceSat = teacherTemplatesOf runTwiceSat ∧
     teacherTemplatesOf runOnceSat =
       some (some (List.replicate 10 (optTemplate "teacher" eShort)))) := by
  decide

/-- C7 (amended): the merge is not idempotent — running it twice on the same
catalog with the same source leaves the optimized template at both index 0
and index 1 of the processed industry (two copies inserted), and the
template list contents coincide between the two runs exactly when the
pre-merge list already begins with nine copies of the optimized template —
with every other pre-merge list the contents differ; the updated count,
however, is the same in both runs, not different. -/
theorem C7_not_idempotent (c : Catalog) (s : SourceDoc) (k : String) (ind : Industry)
    (e : ExpertInfo) (c1 : Catalog) (n1 : Nat) (c2 : Catalog) (n2 : Nat)
    (hk : k ∈ mappingKeys)
    (hc : lookupA k c.industries = some ind)
    (hs : lookupA k s.experts = some e)
    (h1 : update_expert_templates c s = some (c1, n1))
    (h2 : update_expert_templates c1 s = some (c2, n2)) :
    n2 = n1 ∧
    ∃ ind1 ind2,
      lookupA k c1.industries = some ind1 ∧
      lookupA k c2.industries = some ind2 ∧
      ind2.templates[0]? = some (optTemplate k e) ∧
      ind2.templates[1]? = some (optTemplate k e) ∧
      (ind1.templates = ind2.templates ↔
        ind.templates.take 9 = List.replicate 9 (optTemplate k e)) := by
  obtain ⟨t0, ts, hT, hl1⟩ := update_hit c s k ind e c1 n1 hk hc hs h1
  obtain ⟨t0', ts', hT', hl2⟩ :=
    update_hit c1 s k (mergedIndustry e (optTemplate k e) ind) e c2 n2 hk hl1 hs h2
  constructor
  · rw [update_expert_templates] at h1 h2
    have e1 := foldl_count s expert_mapping c 0 c1 n1 h1
    have e2 := foldl_count s expert_mapping c1 0 c2 n2 h2
    have hpre := foldl_isSome s expert_mapping c 0 c1 n1 h1
    have hcong : expert_mapping.countP (bothPresent c1 s) =
        expert_mapping.countP (bothPresent c s) := by
      apply List.countP_congr
      intro p _
      simp [bothPresent, hpre p.1]
    omega
  · obtain ⟨rest, hr⟩ := mergedIndustry_templates_shape e (optTemplate k e) ind
    have hcons : optTemplate k e :: rest = t0' :: ts' := hr.symm.trans hT'
    obtain ⟨ht0, -⟩ := List.cons.inj hcons
    refine ⟨mergedIndustry e (optTemplate k e) ind,
      mergedIndustry e (optTemplate k e) (mergedIndustry e (optTemplate k e) ind),
      hl1, hl2, mergedIndustry_templates_zero e _ _, ?_, ?_⟩
    · rw [mergedIndustry_templates_one e (optTemplate k e)
        (mergedIndustry e (optTemplate k e) ind) t0' ts' hT', ← ht0]
    · exact merged_twice_eq_iff e (optTemplate k e) ind

/-- Witness for C7 (amended) on the teacher catalog: both runs report count
1, the second run's list holds the optimized template at indices 0 and 1,
and the two runs' lists differ because the single-template pre-merge list is
not nine copies of the optimized template. -/
theorem C7_witness :
    ("teacher" ∈ mappingKeys ∧
     lookupA "teacher" cTeach.industries = some indTeach ∧
     lookupA "teacher" sOne.experts = some eShort ∧
     update_expert_templates cTeach sOne = some (cTeach1, 1) ∧
     update_expert_templates cTeach1 sOne = some (cTeach2, 1)) ∧
    (1 = 1 ∧
     ∃ ind1 ind2,
       lookupA "teacher" cTeach1.industries = some ind1 ∧
       lookupA "teacher" cTeach2.industries = some ind2 ∧
       ind2.templates[0]? = some (optTemplate "teacher" eShort) ∧
       ind2.templates[1]? = some (optTemplate "teacher" eShort) ∧
       (ind1.templates = ind2.templates ↔
         indTeach.templates.take 9 = List.replicate 9 (optTemplate "teacher" eShort))) :=
  ⟨⟨by decide, by decide, by decide, by decide, by decide⟩,
   C7_not_idempotent cTeach sOne "teacher" indTeach eShort cTeach1 1 cTeach2 1
     (by decide) (by decide) (by decide) (by decide) (by decide)⟩

/-- C8: the version stamper runs unconditionally exactly once after a
successful merge, for any count (including zero): the run exits 0, writes
the backup and then the catalog, and the written catalog is the merge result
with version `2025.2-optimized`, `lastUpdated` set, and the
`optimizationInfo` record holding the fixed five-entry feature list, the
updated count, and the backup file's base name. -/
theorem C8_version_stamp (c : Catalog) (s : SourceDoc) (ts date dt : String)
    (c' : Catalog) (n : Nat)
    (hu : update_expert_templates c s = some (c', n)) :
    runScript (some c) (some s) ts date dt =
      (0, [(backup_file ts, c),
           (original_file, stampVersion c' n date dt (backupBaseName ts))]) ∧
    (stampVersion c' n date dt (backupBaseName ts)).version = "2025.2-optimized" ∧
    (stampVersion c' n date dt (backupBaseName ts)).lastUpdated = date ∧
    (stampVersion c' n date dt (backupBaseName ts)).optimizationInfo =
      some { optimizedBy := "Claude Code AI Prompt Generator"
             optimizationDate := dt
             features := features_list
             expertCount := n
             backupFile := backupBaseName ts } := by
  refine ⟨?_, rfl, rfl, rfl⟩
  simp [runScript, hu]

/-- Witness for C8 on a catalog with no industries: zero experts are
updated, yet the stamp is applied and the run exits 0. -/
theorem C8_witness :
    update_expert_templates cEmpty sOne = some (cEmpty, 0) ∧
    (runScript (some cEmpty) (some sOne) "TS" "D" "DT" =
      (0, [(backup_file "TS", cEmpty),
           (original_file, stampVersion cEmpty 0 "D" "DT" (backupBaseName "TS"))]) ∧
     (stampVersion cEmpty 0 "D" "DT" (backupBaseName "TS")).version = "2025.2-optimized" ∧
     (stampVersion cEmpty 0 "D" "DT" (backupBaseName "TS")).lastUpdated = "D" ∧
     (stampVersion cEmpty 0 "D" "DT" (backupBaseName "TS")).optimizationInfo =
       some { optimizedBy := "Claude Code AI Prompt Generator"
              optimizationDate := "DT"
              features := features_list
              expertCount := 0
              backupFile := backupBaseName "TS" }) :=
  ⟨by decide, C8_version_stamp cEmpty sOne "TS" "D" "DT" cEmpty 0 (by decide)⟩

/-- C9 (implicit): the merge indexes `templates[0]` before inserting, so a
non-empty template list is an undocumented precondition: when a processed
industry's template list is empty the merge raises (modelled by `none`) and
the run exits 1 with only the backup written — the catalog file is not
overwritten. -/
theorem C9_empty_templates_aborts (c : Catalog) (s : SourceDoc) (k : String)
    (ind : Industry) (e : ExpertInfo) (ts date dt : String)
    (hk : k ∈ mappingKeys)
    (hc : lookupA k c.industries = some ind)
    (hs : lookupA k s.experts = some e)
    (hT : ind.templates = []) :
    update_expert_templates c s = none ∧
    runScript (some c) (some s) ts date dt = (1, [(backup_file ts, c)]) := by
  have hnone : update_expert_templates c s = none := by
    obtain ⟨L1, L2, hm, hA, hB⟩ := exists_decomp k hk
    rw [update_expert_templates, hm, List.foldl_append]
    cases ha : L1.foldl (processKey s) (some (c, 0)) with
    | none => rw [foldl_processKey_none]
    | some a =>
      obtain ⟨c1, n1⟩ := a
      have hc1 : lookupA k c1.industries = some ind := by
        rw [foldl_frame_ne s k L1 c 0 c1 n1 hA ha]
        exact hc
      rw [List.foldl_cons, processKey_empty s c1 n1 (k, k) ind e hc1 hs hT,
        foldl_processKey_none]
  exact ⟨hnone, by simp [runScript, hnone]⟩

/-- Witness for C9 on a teacher industry with an empty template list. -/
theorem C9_witness :
    ("teacher" ∈ mappingKeys ∧
     lookupA "teacher" cTeachEmpty.industries = some indTeachEmpty ∧
     lookupA "teacher" sOne.experts = some eShort ∧
     indTeachEmpty.templates = []) ∧
    (update_expert_templates cTeachEmpty sOne = none ∧
     runScript (some cTeachEmpty) (some sOne) "TS" "D" "DT" =
       (1, [(backup_file "TS", cTeachEmpty)])) :=
  ⟨⟨by decide, by decide, by decide, by decide⟩,
   C9_empty_templates_aborts cTeachEmpty sOne "teacher" indTeachEmpty eShort "TS" "D" "DT"
     (by decide) (by decide) (by decide) (by decide)⟩

/-- C10 (implicit): the built optimized template does not depend on the
`original_template` argument: two calls with the same expert key and source
but different original templates return equal results — every field comes
from the expert's record or from hard-coded constants. -/
theorem C10_builder_ignores_original (expert_key : String) (optimized_data : SourceDoc)
    (t1 t2 : Template) :
    create_optimized_template expert_key optimized_data t1 =
      create_optimized_template expert_key optimized_data t2 := rfl

end UpdateExpertTemplates
